import Mathlib

/-!
Formal model of the angle-classification and trigonometric-evaluation core of
the unit-circle explorer (`Unit circle/app.py`).

Python numbers reaching these functions are ints and IEEE-754 binary64
floats; both are exact rational values and Python compares them exactly, so
the angle domain is embedded as `ℚ` and the branch structure of the source is
preserved verbatim.  A function that can fall through every branch (returning
Python's implicit `None`) is embedded with an `Option` result.  The platform
libm routines `math.radians`, `math.sin`, `math.cos`, `math.tan` are
deterministic maps from doubles to doubles; they enter the model as explicit
function parameters on rationals.
-/

namespace UnitCircle

/-- Shallow embedding of `get_quadrant` (app.py lines 8-26).  The source is a
chain of early-return `if`s followed by an `if`/`elif` chain; falling off the
end of the function returns Python's implicit `None`, embedded as `none`. -/
def get_quadrant (angle : ℚ) : Option String :=
  if angle = 0 ∨ angle = 360 then some ("Positive X-axis")
  else if angle = 90 then some ("Positive Y-axis")
  else if angle = 180 then some ("Negative X-axis")
  else if angle = 270 then some ("Negative Y-axis")
  else if 0 < angle ∧ angle < 90 then some ("Quadrant I")
  else if 90 < angle ∧ angle < 180 then some ("Quadrant II")
  else if 180 < angle ∧ angle < 270 then some ("Quadrant III")
  else if 270 < angle ∧ angle < 360 then some ("Quadrant IV")
  else none

/-- Shallow embedding of `get_reference_angle` (app.py lines 28-40).  The
explicit `return None` on the axis branch and the implicit `None` on
fall-through are both embedded as `none`. -/
def get_reference_angle (angle : ℚ) : Option ℚ :=
  if angle = 0 ∨ angle = 90 ∨ angle = 180 ∨ angle = 270 ∨ angle = 360 then none
  else if 0 < angle ∧ angle < 90 then some angle
  else if 90 < angle ∧ angle < 180 then some (180 - angle)
  else if 180 < angle ∧ angle < 270 then some (angle - 180)
  else if 270 < angle ∧ angle < 360 then some (360 - angle)
  else none

/-- The four labels produced by the axis branches of `get_quadrant`. -/
def axisLabels : List String :=
  ["Positive X-axis", "Positive Y-axis", "Negative X-axis", "Negative Y-axis"]

/-- The four labels produced by the open-interval branches of `get_quadrant`. -/
def quadLabels : List String :=
  ["Quadrant I", "Quadrant II", "Quadrant III", "Quadrant IV"]

/-- All eight labels `get_quadrant` can produce. -/
def allLabels : List String := axisLabels ++ quadLabels

/-- Output of the trig computation in the property panel: sine, cosine, and
either a finite tangent value (`some`) or the string sentinel `"Undefined"`
(`none`). -/
structure TrigValues where
  sine : ℚ
  cosine : ℚ
  tangent : Option ℚ
deriving DecidableEq, Repr

/-- Shallow embedding of the property-panel trig computation (app.py lines
155-161): `rad = math.radians(angle)`, `cos_val = math.cos(rad)`,
`sin_val = math.sin(rad)`, and
`tan_val = math.tan(rad) if cos_val != 0 else "Undefined"`.
The libm maps are passed in as `radiansF`, `sinF`, `cosF`, `tanF`. -/
def evaluate (radiansF sinF cosF tanF : ℚ → ℚ) (angle : ℚ) : TrigValues :=
  let rad := radiansF angle
  let cos_val := cosF rad
  let sin_val := sinF rad
  let tan_val : Option ℚ := if cos_val ≠ 0 then some (tanF rad) else none
  { sine := sin_val, cosine := cos_val, tangent := tan_val }

/-- The exact rational value of the IEEE-754 binary64 number
`math.radians(90)` = 1.5707963267948966 (bit pattern 0x3FF921FB54442D18),
the double nearest to π/2. -/
def rad90 : ℚ := 7074237752028440 / 2 ^ 52

/-- The cosine of any rational number is nonzero: the zeros of cosine are the
odd multiples of π/2, which are irrational. -/
theorem cos_rat_ne_zero (q : ℚ) : Real.cos (q : ℝ) ≠ 0 := by
  intro h
  rw [Real.cos_eq_zero_iff] at h
  obtain ⟨k, hk⟩ := h
  have h2k1 : (2 * k + 1 : ℤ) ≠ 0 := by omega
  have hirr : Irrational (((2 * k + 1 : ℤ) : ℝ) * Real.pi / 2) :=
    (irrational_pi.int_mul h2k1).div_nat (by norm_num)
  have : Irrational ((q : ℝ)) := by
    rw [hk]
    have := hirr
    push_cast at this
    convert this using 2
  exact Rat.not_irrational q this

/-! Helper lemmas: the value of each function on each region of its domain. -/

theorem get_quadrant_posX {a : ℚ} (h : a = 0 ∨ a = 360) :
    get_quadrant a = some ("Positive X-axis") := by
  simp only [get_quadrant]
  rw [if_pos h]

theorem get_quadrant_posY {a : ℚ} (h : a = 90) :
    get_quadrant a = some ("Positive Y-axis") := by
  subst h
  norm_num [get_quadrant]

theorem get_quadrant_negX {a : ℚ} (h : a = 180) :
    get_quadrant a = some ("Negative X-axis") := by
  subst h
  norm_num [get_quadrant]

theorem get_quadrant_negY {a : ℚ} (h : a = 270) :
    get_quadrant a = some ("Negative Y-axis") := by
  subst h
  norm_num [get_quadrant]

theorem get_quadrant_I {a : ℚ} (h0 : 0 < a) (h1 : a < 90) :
    get_quadrant a = some ("Quadrant I") := by
  simp only [get_quadrant]
  rw [if_neg (by rintro (rfl | rfl) <;> linarith),
      if_neg (by rintro rfl; linarith),
      if_neg (by rintro rfl; linarith),
      if_neg (by rintro rfl; linarith),
      if_pos ⟨h0, h1⟩]

theorem get_quadrant_II {a : ℚ} (h0 : 90 < a) (h1 : a < 180) :
    get_quadrant a = some ("Quadrant II") := by
  simp only [get_quadrant]
  rw [if_neg (by rintro (rfl | rfl) <;> linarith),
      if_neg (by rintro rfl; linarith),
      if_neg (by rintro rfl; linarith),
      if_neg (by rintro rfl; linarith),
      if_neg (by rintro ⟨u, v⟩; linarith),
      if_pos ⟨h0, h1⟩]

theorem get_quadrant_III {a : ℚ} (h0 : 180 < a) (h1 : a < 270) :
    get_quadrant a = some ("Quadrant III") := by
  simp only [get_quadrant]
  rw [if_neg (by rintro (rfl | rfl) <;> linarith),
      if_neg (by rintro rfl; linarith),
      if_neg (by rintro rfl; linarith),
      if_neg (by rintro rfl; linarith),
      if_neg (by rintro ⟨u, v⟩; linarith),
      if_neg (by rintro ⟨u, v⟩; linarith),
      if_pos ⟨h0, h1⟩]

theorem get_quadrant_IV {a : ℚ} (h0 : 270 < a) (h1 : a < 360) :
    get_quadrant a = some ("Quadrant IV") := by
  simp only [get_quadrant]
  rw [if_neg (by rintro (rfl | rfl) <;> linarith),
      if_neg (by rintro rfl; linarith),
      if_neg (by rintro rfl; linarith),
      if_neg (by rintro rfl; linarith),
      if_neg (by rintro ⟨u, v⟩; linarith),
      if_neg (by rintro ⟨u, v⟩; linarith),
      if_neg (by rintro ⟨u, v⟩; linarith),
      if_pos ⟨h0, h1⟩]

theorem get_quadrant_out {a : ℚ} (h : a < 0 ∨ 360 < a) : get_quadrant a = none := by
  simp only [get_quadrant]
  rw [if_neg (by rintro (rfl | rfl) <;> rcases h with h | h <;> linarith),
      if_neg (by rintro rfl; rcases h with h | h <;> linarith),
      if_neg (by rintro rfl; rcases h with h | h <;> linarith),
      if_neg (by rintro rfl; rcases h with h | h <;> linarith),
      if_neg (by rintro ⟨u, v⟩; rcases h with h | h <;> linarith),
      if_neg (by rintro ⟨u, v⟩; rcases h with h | h <;> linarith),
      if_neg (by rintro ⟨u, v⟩; rcases h with h | h <;> linarith),
      if_neg (by rintro ⟨u, v⟩; rcases h with h | h <;> linarith)]

theorem get_reference_angle_axis {a : ℚ}
    (h : a = 0 ∨ a = 90 ∨ a = 180 ∨ a = 270 ∨ a = 360) :
    get_reference_angle a = none := by
  simp only [get_reference_angle]
  rw [if_pos h]

theorem get_reference_angle_I {a : ℚ} (h0 : 0 < a) (h1 : a < 90) :
    get_reference_angle a = some a := by
  simp only [get_reference_angle]
  rw [if_neg (by rintro (rfl | rfl | rfl | rfl | rfl) <;> linarith),
      if_pos ⟨h0, h1⟩]

theorem get_reference_angle_II {a : ℚ} (h0 : 90 < a) (h1 : a < 180) :
    get_reference_angle a = some (180 - a) := by
  simp only [get_reference_angle]
  rw [if_neg (by rintro (rfl | rfl | rfl | rfl | rfl) <;> linarith),
      if_neg (by rintro ⟨u, v⟩; linarith),
      if_pos ⟨h0, h1⟩]

theorem get_reference_angle_III {a : ℚ} (h0 : 180 < a) (h1 : a < 270) :
    get_reference_angle a = some (a - 180) := by
  simp only [get_reference_angle]
  rw [if_neg (by rintro (rfl | rfl | rfl | rfl | rfl) <;> linarith),
      if_neg (by rintro ⟨u, v⟩; linarith),
      if_neg (by rintro ⟨u, v⟩; linarith),
      if_pos ⟨h0, h1⟩]

theorem get_reference_angle_IV {a : ℚ} (h0 : 270 < a) (h1 : a < 360) :
    get_reference_angle a = some (360 - a) := by
  simp only [get_reference_angle]
  rw [if_neg (by rintro (rfl | rfl | rfl | rfl | rfl) <;> linarith),
      if_neg (by rintro ⟨u, v⟩; linarith),
      if_neg (by rintro ⟨u, v⟩; linarith),
      if_neg (by rintro ⟨u, v⟩; linarith),
      if_pos ⟨h0, h1⟩]

theorem get_reference_angle_out {a : ℚ} (h : a < 0 ∨ 360 < a) :
    get_reference_angle a = none := by
  simp only [get_reference_angle]
  rw [if_neg (by rintro (rfl | rfl | rfl | rfl | rfl) <;> rcases h with h | h <;> linarith),
      if_neg (by rintro ⟨u, v⟩; rcases h with h | h <;> linarith),
      if_neg (by rintro ⟨u, v⟩; rcases h with h | h <;> linarith),
      if_neg (by rintro ⟨u, v⟩; rcases h with h | h <;> linarith),
      if_neg (by rintro ⟨u, v⟩; rcases h with h | h <;> linarith)]

/-- Exhaustive case split of the contract domain `[0, 360]` into the five axis
values and the four open quadrant intervals. -/
theorem domain_cases {a : ℚ} (h0 : 0 ≤ a) (h1 : a ≤ 360) :
    a = 0 ∨ (0 < a ∧ a < 90) ∨ a = 90 ∨ (90 < a ∧ a < 180) ∨ a = 180 ∨
      (180 < a ∧ a < 270) ∨ a = 270 ∨ (270 < a ∧ a < 360) ∨ a = 360 := by
  rcases h0.eq_or_lt with h | ha0
  · exact Or.inl h.symm
  rcases lt_trichotomy a 90 with h | h | h
  · exact Or.inr (Or.inl ⟨ha0, h⟩)
  · exact Or.inr (Or.inr (Or.inl h))
  rcases lt_trichotomy a 180 with h' | h' | h'
  · exact Or.inr (Or.inr (Or.inr (Or.inl ⟨h, h'⟩)))
  · exact Or.inr (Or.inr (Or.inr (Or.inr (Or.inl h'))))
  rcases lt_trichotomy a 270 with h'' | h'' | h''
  · exact Or.inr (Or.inr (Or.inr (Or.inr (Or.inr (Or.inl ⟨h', h''⟩)))))
  · exact Or.inr (Or.inr (Or.inr (Or.inr (Or.inr (Or.inr (Or.inl h''))))))
  rcases h1.lt_or_eq with h''' | h'''
  · exact Or.inr (Or.inr (Or.inr (Or.inr (Or.inr (Or.inr (Or.inr (Or.inl ⟨h'', h'''⟩)))))))
  · exact Or.inr (Or.inr (Or.inr (Or.inr (Or.inr (Or.inr (Or.inr (Or.inr h''')))))))

/-! Claim theorems. -/

/-- C1 (code bug): the code reports the "Undefined" tangent sentinel exactly
when the computed floating-point cosine `cos_val` is the float 0.0 — not when
the input angle is 90 or 270.  Moreover the exact cosine of the actual radian
argument at angle 90 (the double `math.radians(90)`, whose rational value is
`rad90`) is nonzero — it is about 6.12e-17 — so a faithfully rounded
`math.cos` returns a nonzero double there and the code produces a finite
tangent at 90 instead of the sentinel, contradicting the claim and the code's
own comment `Handle tan for 90 and 270 degrees`. -/
theorem evaluate_tangent_sentinel_is_float_cos_test :
    (∀ radiansF sinF cosF tanF : ℚ → ℚ, ∀ angle : ℚ,
      (evaluate radiansF sinF cosF tanF angle).tangent = none ↔
        cosF (radiansF angle) = 0) ∧
    Real.cos ((rad90 : ℚ) : ℝ) ≠ 0 := by
  constructor
  · intro radiansF sinF cosF tanF angle
    simp [evaluate]
  · exact cos_rat_ne_zero rad90

/-- C2: `get_quadrant` implements exactly the specified boundary partition of
[0,360] — the five axis values map to the four axis labels, the four open
intervals map to the four quadrant labels — and 360 classifies identically
to 0. -/
theorem get_quadrant_boundary_policy (a : ℚ) (_hlo : 0 ≤ a) (_hhi : a ≤ 360) :
    ((a = 0 ∨ a = 360) → get_quadrant a = some ("Positive X-axis")) ∧
    (a = 90 → get_quadrant a = some ("Positive Y-axis")) ∧
    (a = 180 → get_quadrant a = some ("Negative X-axis")) ∧
    (a = 270 → get_quadrant a = some ("Negative Y-axis")) ∧
    (0 < a ∧ a < 90 → get_quadrant a = some ("Quadrant I")) ∧
    (90 < a ∧ a < 180 → get_quadrant a = some ("Quadrant II")) ∧
    (180 < a ∧ a < 270 → get_quadrant a = some ("Quadrant III")) ∧
    (270 < a ∧ a < 360 → get_quadrant a = some ("Quadrant IV")) ∧
    get_quadrant 360 = get_quadrant 0 :=
  ⟨get_quadrant_posX, get_quadrant_posY, get_quadrant_negX, get_quadrant_negY,
   fun h => get_quadrant_I h.1 h.2, fun h => get_quadrant_II h.1 h.2,
   fun h => get_quadrant_III h.1 h.2, fun h => get_quadrant_IV h.1 h.2,
   by rw [get_quadrant_posX (Or.inr rfl), get_quadrant_posX (Or.inl rfl)]⟩

/-- Witness for C2 at the concrete angle 135. -/
theorem get_quadrant_boundary_policy_witness :
    ((0 : ℚ) ≤ 135 ∧ (135 : ℚ) ≤ 360) ∧ ((90 : ℚ) < 135 ∧ (135 : ℚ) < 180) ∧
      get_quadrant 135 = some ("Quadrant II") :=
  ⟨⟨by norm_num, by norm_num⟩, ⟨by norm_num, by norm_num⟩,
   (get_quadrant_boundary_policy 135 (by norm_num) (by norm_num)).2.2.2.2.2.1
     ⟨by norm_num, by norm_num⟩⟩

/-- C3: on [0,360], `get_quadrant` is total — it always returns one of the 8
enumerated labels, never falling through to `none` — and it returns an axis
label exactly on the five inputs {0,90,180,270,360} (the behavioral content
of the axis checks taking priority over the open-interval checks). -/
theorem get_quadrant_total (a : ℚ) (hlo : 0 ≤ a) (hhi : a ≤ 360) :
    ∃ l, get_quadrant a = some l ∧ l ∈ allLabels ∧
      (l ∈ axisLabels ↔ a = 0 ∨ a = 90 ∨ a = 180 ∨ a = 270 ∨ a = 360) := by
  rcases domain_cases hlo hhi with h | h | h | h | h | h | h | h | h
  · exact ⟨_, get_quadrant_posX (Or.inl h), by decide, iff_of_true (by decide) (Or.inl h)⟩
  · exact ⟨_, get_quadrant_I h.1 h.2, by decide,
      iff_of_false (by decide)
        (by rintro (rfl | rfl | rfl | rfl | rfl) <;> (obtain ⟨u, v⟩ := h; linarith))⟩
  · exact ⟨_, get_quadrant_posY h, by decide,
      iff_of_true (by decide) (Or.inr (Or.inl h))⟩
  · exact ⟨_, get_quadrant_II h.1 h.2, by decide,
      iff_of_false (by decide)
        (by rintro (rfl | rfl | rfl | rfl | rfl) <;> (obtain ⟨u, v⟩ := h; linarith))⟩
  · exact ⟨_, get_quadrant_negX h, by decide,
      iff_of_true (by decide) (Or.inr (Or.inr (Or.inl h)))⟩
  · exact ⟨_, get_quadrant_III h.1 h.2, by decide,
      iff_of_false (by decide)
        (by rintro (rfl | rfl | rfl | rfl | rfl) <;> (obtain ⟨u, v⟩ := h; linarith))⟩
  · exact ⟨_, get_quadrant_negY h, by decide,
      iff_of_true (by decide) (Or.inr (Or.inr (Or.inr (Or.inl h))))⟩
  · exact ⟨_, get_quadrant_IV h.1 h.2, by decide,
      iff_of_false (by decide)
        (by rintro (rfl | rfl | rfl | rfl | rfl) <;> (obtain ⟨u, v⟩ := h; linarith))⟩
  · exact ⟨_, get_quadrant_posX (Or.inr h), by decide,
      iff_of_true (by decide) (Or.inr (Or.inr (Or.inr (Or.inr h))))⟩

/-- Witness for C3 at the concrete angle 45: the hypotheses hold and the
classifier does not fall through. -/
theorem get_quadrant_total_witness :
    (0 : ℚ) ≤ 45 ∧ (45 : ℚ) ≤ 360 ∧ get_quadrant 45 ≠ none :=
  ⟨by norm_num, by norm_num, by
    obtain ⟨l, hl, -, -⟩ := get_quadrant_total 45 (by norm_num) (by norm_num)
    simp [hl]⟩

/-- C4: on [0,360], `get_reference_angle` returns the `none` sentinel exactly
for the five axis inputs 0, 90, 180, 270, 360. -/
theorem get_reference_angle_none_iff (a : ℚ) (hlo : 0 ≤ a) (hhi : a ≤ 360) :
    get_reference_angle a = none ↔
      a = 0 ∨ a = 90 ∨ a = 180 ∨ a = 270 ∨ a = 360 := by
  constructor
  · intro hnone
    rcases domain_cases hlo hhi with h | h | h | h | h | h | h | h | h
    · exact Or.inl h
    · rw [get_reference_angle_I h.1 h.2] at hnone
      exact (Option.some_ne_none _ hnone).elim
    · exact Or.inr (Or.inl h)
    · rw [get_reference_angle_II h.1 h.2] at hnone
      exact (Option.some_ne_none _ hnone).elim
    · exact Or.inr (Or.inr (Or.inl h))
    · rw [get_reference_angle_III h.1 h.2] at hnone
      exact (Option.some_ne_none _ hnone).elim
    · exact Or.inr (Or.inr (Or.inr (Or.inl h)))
    · rw [get_reference_angle_IV h.1 h.2] at hnone
      exact (Option.some_ne_none _ hnone).elim
    · exact Or.inr (Or.inr (Or.inr (Or.inr h)))
  · exact get_reference_angle_axis

/-- Witness for C4 at the concrete angle 270. -/
theorem get_reference_angle_none_iff_witness :
    ((0 : ℚ) ≤ 270 ∧ (270 : ℚ) ≤ 360) ∧
      (get_reference_angle 270 = none ↔
        (270 : ℚ) = 0 ∨ (270 : ℚ) = 90 ∨ (270 : ℚ) = 180 ∨ (270 : ℚ) = 270 ∨
          (270 : ℚ) = 360) :=
  ⟨⟨by norm_num, by norm_num⟩,
   get_reference_angle_none_iff 270 (by norm_num) (by norm_num)⟩

/-- C5: on each open quadrant interval, `get_reference_angle` computes the
specified acute-angle formula. -/
theorem get_reference_angle_formulas (a : ℚ) :
    (0 < a ∧ a < 90 → get_reference_angle a = some a) ∧
    (90 < a ∧ a < 180 → get_reference_angle a = some (180 - a)) ∧
    (180 < a ∧ a < 270 → get_reference_angle a = some (a - 180)) ∧
    (270 < a ∧ a < 360 → get_reference_angle a = some (360 - a)) :=
  ⟨fun h => get_reference_angle_I h.1 h.2, fun h => get_reference_angle_II h.1 h.2,
   fun h => get_reference_angle_III h.1 h.2, fun h => get_reference_angle_IV h.1 h.2⟩

/-- Witness for C5 at the concrete angle 225. -/
theorem get_reference_angle_formulas_witness :
    ((180 : ℚ) < 225 ∧ (225 : ℚ) < 270) ∧
      get_reference_angle 225 = some (225 - 180) :=
  ⟨⟨by norm_num, by norm_num⟩,
   (get_reference_angle_formulas 225).2.2.1 ⟨by norm_num, by norm_num⟩⟩

/-- C6: for every non-axis angle in [0,360], the reference angle is a number
strictly between 0 and 90. -/
theorem get_reference_angle_strictly_acute (a : ℚ) (hlo : 0 ≤ a) (hhi : a ≤ 360)
    (hax : ¬(a = 0 ∨ a = 90 ∨ a = 180 ∨ a = 270 ∨ a = 360)) :
    ∃ r, get_reference_angle a = some r ∧ 0 < r ∧ r < 90 := by
  rcases domain_cases hlo hhi with h | h | h | h | h | h | h | h | h
  · exact absurd (Or.inl h) hax
  · exact ⟨a, get_reference_angle_I h.1 h.2, h.1, h.2⟩
  · exact absurd (Or.inr (Or.inl h)) hax
  · obtain ⟨u, v⟩ := h
    exact ⟨180 - a, get_reference_angle_II u v, by linarith, by linarith⟩
  · exact absurd (Or.inr (Or.inr (Or.inl h))) hax
  · obtain ⟨u, v⟩ := h
    exact ⟨a - 180, get_reference_angle_III u v, by linarith, by linarith⟩
  · exact absurd (Or.inr (Or.inr (Or.inr (Or.inl h)))) hax
  · obtain ⟨u, v⟩ := h
    exact ⟨360 - a, get_reference_angle_IV u v, by linarith, by linarith⟩
  · exact absurd (Or.inr (Or.inr (Or.inr (Or.inr h)))) hax

/-- Witness for C6 at the concrete angle 100. -/
theorem get_reference_angle_strictly_acute_witness :
    ((0 : ℚ) ≤ 100 ∧ (100 : ℚ) ≤ 360 ∧
      ¬((100 : ℚ) = 0 ∨ (100 : ℚ) = 90 ∨ (100 : ℚ) = 180 ∨ (100 : ℚ) = 270 ∨
        (100 : ℚ) = 360)) ∧
      get_reference_angle 100 ≠ none :=
  ⟨⟨by norm_num, by norm_num, by norm_num⟩, by
    obtain ⟨r, hr, -, -⟩ :=
      get_reference_angle_strictly_acute 100 (by norm_num) (by norm_num) (by norm_num)
    simp [hr]⟩

/-- C7: reference-angle symmetry — for every angle in (180,360) other than
270, the reference angle agrees with that of the reflected angle 360 − a. -/
theorem get_reference_angle_symm (a : ℚ) (h0 : 180 < a) (h1 : a < 360)
    (h2 : a ≠ 270) :
    get_reference_angle a = get_reference_angle (360 - a) := by
  rcases lt_trichotomy a 270 with h | h | h
  · rw [get_reference_angle_III h0 h,
        get_reference_angle_II (by linarith) (by linarith),
        show (180 : ℚ) - (360 - a) = a - 180 by ring]
  · exact absurd h h2
  · rw [get_reference_angle_IV h h1,
        get_reference_angle_I (by linarith) (by linarith)]

/-- Witness for C7 at the concrete angle 300, together with the spec's worked
example referenceAngle(300) = referenceAngle(60) = 60. -/
theorem get_reference_angle_symm_witness :
    ((180 : ℚ) < 300 ∧ (300 : ℚ) < 360 ∧ (300 : ℚ) ≠ 270) ∧
      get_reference_angle 300 = get_reference_angle (360 - 300) ∧
      (360 : ℚ) - 300 = 60 ∧ get_reference_angle 60 = some 60 :=
  ⟨⟨by norm_num, by norm_num, by norm_num⟩,
   get_reference_angle_symm 300 (by norm_num) (by norm_num) (by norm_num),
   by norm_num, by norm_num [get_reference_angle]⟩

/-- C8: determinism/purity — the classifiers and the trig evaluation are pure
functions of the angle (and, for `evaluate`, of the fixed deterministic libm
maps) alone: repeated calls with the same input yield identical results, and
the results depend only on the value of the angle. -/
theorem pure_deterministic (a : ℚ) (radiansF sinF cosF tanF : ℚ → ℚ) :
    get_quadrant a = get_quadrant a ∧
    get_reference_angle a = get_reference_angle a ∧
    evaluate radiansF sinF cosF tanF a = evaluate radiansF sinF cosF tanF a ∧
    ∀ b : ℚ, a = b →
      get_quadrant a = get_quadrant b ∧
      get_reference_angle a = get_reference_angle b ∧
      evaluate radiansF sinF cosF tanF a = evaluate radiansF sinF cosF tanF b :=
  ⟨rfl, rfl, rfl, fun b hb => by rw [hb]; exact ⟨rfl, rfl, rfl⟩⟩

/-- Witness for C8 at the concrete angle 45 (with the identity map standing
in for the libm parameters). -/
theorem pure_deterministic_witness :
    (45 : ℚ) = 45 ∧ get_quadrant 45 = get_quadrant 45 :=
  ⟨rfl, ((pure_deterministic 45 id id id id).2.2.2 45 rfl).1⟩

/-- C9: for every numeric angle outside [0,360] (negative or greater than
360) every branch guard of both classifiers is false, so both fall through
and return Python's implicit `None`; comparisons between numbers cannot
raise, so no exception path exists. -/
theorem out_of_domain_returns_none (a : ℚ) (h : a < 0 ∨ 360 < a) :
    get_quadrant a = none ∧ get_reference_angle a = none :=
  ⟨get_quadrant_out h, get_reference_angle_out h⟩

/-- Witness for C9 at the concrete angle 400. -/
theorem out_of_domain_returns_none_witness :
    ((400 : ℚ) < 0 ∨ (360 : ℚ) < 400) ∧
      get_quadrant 400 = none ∧ get_reference_angle 400 = none :=
  ⟨Or.inr (by norm_num), out_of_domain_returns_none 400 (Or.inr (by norm_num))⟩

/-- C10: on [0,360] the two classifiers agree on axis-ness: the reference
angle is `none` exactly when the quadrant label is one of the four axis
labels, and it is a number exactly when the label is a quadrant label. -/
theorem axis_agreement (a : ℚ) (hlo : 0 ≤ a) (hhi : a ≤ 360) :
    (get_reference_angle a = none ↔
      ∃ l, get_quadrant a = some l ∧ l ∈ axisLabels) ∧
    ((∃ r, get_reference_angle a = some r) ↔
      ∃ l, get_quadrant a = some l ∧ l ∈ quadLabels) := by
  rcases domain_cases hlo hhi with h | h | h | h | h | h | h | h | h
  · refine ⟨iff_of_true (get_reference_angle_axis (Or.inl h))
      ⟨_, get_quadrant_posX (Or.inl h), by decide⟩, iff_of_false ?_ ?_⟩
    · rintro ⟨r, hr⟩
      rw [get_reference_angle_axis (Or.inl h)] at hr
      cases hr
    · rintro ⟨l, hl, hmem⟩
      rw [get_quadrant_posX (Or.inl h)] at hl
      obtain rfl := Option.some.inj hl
      exact absurd hmem (by decide)
  · obtain ⟨u, v⟩ := h
    refine ⟨iff_of_false ?_ ?_, iff_of_true ⟨_, get_reference_angle_I u v⟩
      ⟨_, get_quadrant_I u v, by decide⟩⟩
    · rw [get_reference_angle_I u v]
      exact Option.some_ne_none _
    · rintro ⟨l, hl, hmem⟩
      rw [get_quadrant_I u v] at hl
      obtain rfl := Option.some.inj hl
      exact absurd hmem (by decide)
  · refine ⟨iff_of_true (get_reference_angle_axis (Or.inr (Or.inl h)))
      ⟨_, get_quadrant_posY h, by decide⟩, iff_of_false ?_ ?_⟩
    · rintro ⟨r, hr⟩
      rw [get_reference_angle_axis (Or.inr (Or.inl h))] at hr
      cases hr
    · rintro ⟨l, hl, hmem⟩
      rw [get_quadrant_posY h] at hl
      obtain rfl := Option.some.inj hl
      exact absurd hmem (by decide)
  · obtain ⟨u, v⟩ := h
    refine ⟨iff_of_false ?_ ?_, iff_of_true ⟨_, get_reference_angle_II u v⟩
      ⟨_, get_quadrant_II u v, by decide⟩⟩
    · rw [get_reference_angle_II u v]
      exact Option.some_ne_none _
    · rintro ⟨l, hl, hmem⟩
      rw [get_quadrant_II u v] at hl
      obtain rfl := Option.some.inj hl
      exact absurd hmem (by decide)
  · refine ⟨iff_of_true (get_reference_angle_axis (Or.inr (Or.inr (Or.inl h))))
      ⟨_, get_quadrant_negX h, by decide⟩, iff_of_false ?_ ?_⟩
    · rintro ⟨r, hr⟩
      rw [get_reference_angle_axis (Or.inr (Or.inr (Or.inl h)))] at hr
      cases hr
    · rintro ⟨l, hl, hmem⟩
      rw [get_quadrant_negX h] at hl
      obtain rfl := Option.some.inj hl
      exact absurd hmem (by decide)
  · obtain ⟨u, v⟩ := h
    refine ⟨iff_of_false ?_ ?_, iff_of_true ⟨_, get_reference_angle_III u v⟩
      ⟨_, get_quadrant_III u v, by decide⟩⟩
    · rw [get_reference_angle_III u v]
      exact Option.some_ne_none _
    · rintro ⟨l, hl, hmem⟩
      rw [get_quadrant_III u v] at hl
      obtain rfl := Option.some.inj hl
      exact absurd hmem (by decide)
  · refine ⟨iff_of_true (get_reference_angle_axis (Or.inr (Or.inr (Or.inr (Or.inl h)))))
      ⟨_, get_quadrant_negY h, by decide⟩, iff_of_false ?_ ?_⟩
    · rintro ⟨r, hr⟩
      rw [get_reference_angle_axis (Or.inr (Or.inr (Or.inr (Or.inl h))))] at hr
      cases hr
    · rintro ⟨l, hl, hmem⟩
      rw [get_quadrant_negY h] at hl
      obtain rfl := Option.some.inj hl
      exact absurd hmem (by decide)
  · obtain ⟨u, v⟩ := h
    refine ⟨iff_of_false ?_ ?_, iff_of_true ⟨_, get_reference_angle_IV u v⟩
      ⟨_, get_quadrant_IV u v, by decide⟩⟩
    · rw [get_reference_angle_IV u v]
      exact Option.some_ne_none _
    · rintro ⟨l, hl, hmem⟩
      rw [get_quadrant_IV u v] at hl
      obtain rfl := Option.some.inj hl
      exact absurd hmem (by decide)
  · refine ⟨iff_of_true (get_reference_angle_axis (Or.inr (Or.inr (Or.inr (Or.inr h)))))
      ⟨_, get_quadrant_posX (Or.inr h), by decide⟩, iff_of_false ?_ ?_⟩
    · rintro ⟨r, hr⟩
      rw [get_reference_angle_axis (Or.inr (Or.inr (Or.inr (Or.inr h))))] at hr
      cases hr
    · rintro ⟨l, hl, hmem⟩
      rw [get_quadrant_posX (Or.inr h)] at hl
      obtain rfl := Option.some.inj hl
      exact absurd hmem (by decide)

/-- Witness for C10 at the concrete angle 90: the axis direction of the
agreement, instantiated and discharged. -/
theorem axis_agreement_witness :
    ((0 : ℚ) ≤ 90 ∧ (90 : ℚ) ≤ 360) ∧ get_reference_angle 90 = none :=
  ⟨⟨by norm_num, by norm_num⟩,
   (axis_agreement 90 (by norm_num) (by norm_num)).1.mpr
     ⟨"Positive Y-axis", by norm_num [get_quadrant], by decide⟩⟩

end UnitCircle
